import Mathlib

/-!
Shallow embedding of the dsdmona login manager (Rust) and proofs about it.

Each definition below mirrors a function of the source repository:
`src/auth.rs`, `src/user.rs`, `src/desktop.rs`, `src/xdisplay.rs`,
`src/lib.rs`.  External OS behaviour (libc calls, the filesystem, the
display server) is passed in as explicit oracle parameters so that the
control flow of the Rust code itself is what is being modelled.
-/

namespace Dsdmona

/-! ## Byte strings

Rust `&str` / `CString` contents are modelled as lists of bytes
(`List Nat`); textual data that is manipulated character-wise
(`desktop.rs`) is modelled as `List Char`. -/

abbrev Bytes := List Nat

/-- Rust's `Result` type. -/
inductive Result (ε α : Type) where
  | error : ε → Result ε α
  | ok : α → Result ε α
deriving DecidableEq

/-- Rust `CString::new(bytes)` fails (and `.unwrap()` panics) exactly when the
byte sequence contains a NUL byte. -/
def cstringNewOk (s : Bytes) : Bool := !s.contains 0

/-! ## `src/user.rs`: bounded-buffer lookups

`getpwuid_r` / `getpwnam_r` / `getspnam_r` are modelled as oracles mapping
the supplied buffer length to an outcome.  The Rust loops start with a
2048-byte buffer and on `ERANGE` grow it with `checked_mul(2)`; the model
reproduces that loop, including the `usize` overflow check. -/

def USIZE_MAX : Nat := 2 ^ 64 - 1

structure User where
  uid : Nat
  primary_group : Nat
  name : Bytes
  home_dir : List String
  shell : List String
deriving DecidableEq

/-- Outcome of a single `getpwuid_r`/`getpwnam_r` call at a given buffer
size: `ERANGE` (buffer too small), a found record, or a null `result`
pointer (no such record / other error). -/
inductive PwOutcome where
  | erange : PwOutcome
  | found : User → PwOutcome
  | notFound : PwOutcome
deriving DecidableEq

/-- The `loop { getpwuid_r(...) }` of `get_user_by_uid` / `get_user_by_name`
(`user.rs:140-149`, `user.rs:214-223`): on `ERANGE` the buffer length is
doubled via `checked_mul(2)?` — in a function returning `Option<User>`,
the `?` on an overflowed `checked_mul` returns `None`. -/
def pwRetryLoop (db : Nat → PwOutcome) (len : Nat) (hlen : 0 < len) : Option User :=
  match db len with
  | .erange =>
      if h : 2 * len ≤ USIZE_MAX then
        pwRetryLoop db (2 * len) (by omega)
      else
        none
  | .found u => some u
  | .notFound => none
termination_by USIZE_MAX - len
decreasing_by
  have : USIZE_MAX = 2 ^ 64 - 1 := rfl
  omega

/-- Model of `get_user_by_uid` (`user.rs:135-161`): initial buffer 2048 bytes. -/
def get_user_by_uid (db : Nat → PwOutcome) : Option User :=
  pwRetryLoop db 2048 (by norm_num)

/-- Model of `get_user_by_name` (`user.rs:201-235`): same loop shape, initial
buffer 2048 bytes (the `CString::new(username)` step is elided: a failed
conversion returns `None` before the loop). -/
def get_user_by_name (db : Nat → PwOutcome) : Option User :=
  pwRetryLoop db 2048 (by norm_num)

/-- Outcome of a single `getspnam_r` call at a given buffer size. -/
inductive SpOutcome where
  | erange : SpOutcome
  | eacces : SpOutcome
  | found : Bytes → SpOutcome
  | notFound : SpOutcome
deriving DecidableEq

/-- The typed errors `get_user_password` can surface. -/
inductive SpError where
  | permissionDenied : SpError
  | resourceExhausted : SpError
  | notFound : SpError
deriving DecidableEq

/-- The `loop { getspnam_r(...) }` of `get_user_password`
(`user.rs:173-191`): `EACCES` yields the permission error, `ERANGE`
doubles the buffer via `checked_mul(2).ok_or_else(...)` — here overflow is
a distinct error — any other return code breaks, and a null/mismatched
`result` yields the not-found error. -/
def spRetryLoop (db : Nat → SpOutcome) (len : Nat) (hlen : 0 < len) :
    Result SpError Bytes :=
  match db len with
  | .eacces => .error .permissionDenied
  | .erange =>
      if h : 2 * len ≤ USIZE_MAX then
        spRetryLoop db (2 * len) (by omega)
      else
        .error .resourceExhausted
  | .found pw => .ok pw
  | .notFound => .error .notFound
termination_by USIZE_MAX - len
decreasing_by
  have : USIZE_MAX = 2 ^ 64 - 1 := rfl
  omega

/-- Model of `get_user_password` (`user.rs:163-199`): initial buffer 2048 bytes. -/
def get_user_password (db : Nat → SpOutcome) : Result SpError Bytes :=
  spRetryLoop db 2048 (by norm_num)

/-! ## `src/user.rs`: human-user enumeration -/

def MIN_UID : Nat := 1000
def MAX_UID : Nat := 65534

/-- Model of `all_users` (`user.rs:285-287`): streams the records `getpwent`
returns, in order; the stream is the model's parameter. -/
def all_users (db : List User) : List User := db

/-- Model of `all_human_users` (`user.rs:289-291`):
`all_users().filter(|user| user.uid >= MIN_UID && user.uid < MAX_UID)`. -/
def all_human_users (db : List User) : List User :=
  (all_users db).filter fun u => decide (MIN_UID ≤ u.uid) && decide (u.uid < MAX_UID)

/-! ## `src/auth.rs`: password verification

`crypt` is an oracle from (key, salt) to an optional hash (a null return
is `none`).  `auth_password` first runs `CString::new(password).unwrap()`
— a panic, modelled as `none`, whenever the candidate contains a NUL
byte — then performs the shadow lookup and the byte comparison. -/

/-- Model of `auth_password` (`auth.rs:13-33`).  Returns `none` exactly where the
Rust function panics (`CString::new(password).unwrap()` on a candidate
containing a NUL byte); otherwise `some` of the boolean the function
returns. -/
def auth_password (crypt : Bytes → Bytes → Option Bytes)
    (lookup : Result SpError Bytes) (password : Bytes) : Option Bool :=
  if cstringNewOk password then
    match lookup with
    | .error _ => some false
    | .ok user_password =>
        match crypt password user_password with
        | none => some false
        | some result => some (decide (user_password = result))
  else
    none

/-! ## `src/xdisplay.rs`: display-slot probing -/

/-- The probe loop of `find_free_xdisplay` (`xdisplay.rs:13-21`), started
at index `i` with `fuel` indices left to try.  `locks i` tells whether
`/tmp/.X<i>-lock` exists. -/
def findFreeFrom (locks : Nat → Bool) : Nat → Nat → Option Nat
  | 0, _ => none
  | fuel + 1, i => if !locks i then some i else findFreeFrom locks fuel (i + 1)

/-- Model of `find_free_xdisplay` (`xdisplay.rs:13-21`): probe indices `0..32`
sequentially, return the first whose lock file is absent. -/
def find_free_xdisplay (locks : Nat → Bool) : Option Nat :=
  findFreeFrom locks 32 0

/-! ## `src/desktop.rs`: the last-session record store

Text handled by `desktop.rs` is modelled as `List Char`; filesystem paths
as lists of components (`List String`).  The filesystem itself is a small
association list of path/node pairs so that `create_dir_all`, `write`,
`set_permissions`, `exists` and `read_to_string` can be given their POSIX
behaviour. -/

inductive Environment where
  | xorg : Environment
deriving DecidableEq

/-- Model of `Display for Environment` (`desktop.rs:158-164`). -/
def Environment.display : Environment → List Char
  | .xorg => "Xorg".toList

/-- Model of `FromStr for Environment` (`desktop.rs:166-175`): only the exact
strings `"Xorg"` and `"xorg"` parse. -/
def Environment.fromStr (s : List Char) : Option Environment :=
  if s = "Xorg".toList ∨ s = "xorg".toList then some .xorg else none

structure Desktop where
  name : List Char
  comment : List Char
  exec : List Char
  env : Environment
deriving DecidableEq

structure LastSession where
  uid : Nat
  exec : List Char
  env : Environment
deriving DecidableEq

abbrev FsPath := List String

inductive FsNode where
  | dir : FsNode
  | file : List Char → FsNode
deriving DecidableEq

/-- A filesystem: first match wins on lookup. -/
abbrev Fs := List (FsPath × FsNode)

def fsLookup (fs : Fs) (p : FsPath) : Option FsNode :=
  (fs.find? fun e => decide (e.1 = p)).map Prod.snd

def fsExists (fs : Fs) (p : FsPath) : Bool :=
  (fsLookup fs p).isSome

/-- The non-empty prefixes of a path, shortest first: the directories
`create_dir_all` creates in order. -/
def fsPrefixes (p : FsPath) : List FsPath :=
  (List.range p.length).map fun i => p.take (i + 1)

def mkdirAll (fs : Fs) : List FsPath → Option Fs
  | [] => some fs
  | q :: rest =>
      match fsLookup fs q with
      | some (.file _) => none
      | some .dir => mkdirAll fs rest
      | none => mkdirAll ((q, .dir) :: fs) rest

/-- Model of `std::fs::create_dir_all(p)`: create every missing ancestor of `p`
and `p` itself as directories; fails if a file occupies any of them. -/
def create_dir_all (fs : Fs) (p : FsPath) : Option Fs :=
  mkdirAll fs (fsPrefixes p)

/-- Model of `std::fs::write(p, contents)`: fails when `p` is a directory or its
parent is missing; otherwise creates/truncates the file. -/
def fsWrite (fs : Fs) (p : FsPath) (contents : List Char) : Option Fs :=
  match fsLookup fs p with
  | some .dir => none
  | _ =>
      if p.length ≤ 1 ∨ fsLookup fs (p.dropLast) = some .dir then
        some ((p, .file contents) :: fs)
      else
        none

/-- Model of `std::fs::set_permissions(p, mode)`: succeeds iff `p` exists (the
model does not track modes). -/
def set_permissions (fs : Fs) (p : FsPath) : Option Unit :=
  if fsExists fs p then some () else none

/-- Model of `std::fs::read_to_string(p)`: the contents when `p` is a regular file,
an error (here `none`) when `p` is absent or a directory. -/
def read_to_string (fs : Fs) (p : FsPath) : Option (List Char) :=
  match fsLookup fs p with
  | some (.file c) => some c
  | _ => none

/-- The constant `LAST_SESSION_PATH` (`desktop.rs:14`): `.cache/dsdmona/last_session`,
as path components relative to the home directory. -/
def LAST_SESSION_PATH : FsPath := [".cache", "dsdmona", "last_session"]

/-- Rust `str::trim` for the characters that occur in this code
(ASCII whitespace). -/
def isRustWhitespace (c : Char) : Bool :=
  c = ' ' ∨ c = '\n' ∨ c = '\t' ∨ c = '\r'

def rustTrim (s : List Char) : List Char :=
  ((s.dropWhile isRustWhitespace).reverse.dropWhile isRustWhitespace).reverse

/-- Model of `get_last_session` (`desktop.rs:41-65`): read the record file, trim
it, find the first `';'`, `split_at` that index — note the environment
half keeps the leading `';'` — and parse the environment. -/
def get_last_session (fs : Fs) (user : User) : Option LastSession :=
  let path := user.home_dir ++ LAST_SESSION_PATH
  if !fsExists fs path then
    none
  else
    match read_to_string fs path with
    | none => none
    | some raw =>
        let last_session := rustTrim raw
        match last_session.findIdx? (· = ';') with
        | none => none
        | some split =>
            let exec := last_session.take split
            let env := last_session.drop split
            match Environment.fromStr env with
            | some env => some { uid := user.uid, exec := exec, env := env }
            | none => none

/-! ### Process filesystem-identity state (`src/user.rs:67-76`) -/

/-- The slice of process identity `set_fs_user` touches: `setfsuid`
changes the filesystem uid, `setgid` the gid; the real uid (`getuid`) is
untouched. -/
structure IdState where
  ruid : Nat
  fsuid : Nat
  gid : Nat
deriving DecidableEq

/-- Model of `set_fs_user` (`user.rs:71-76`). -/
def set_fs_user (u : User) (s : IdState) : IdState :=
  { s with fsuid := u.uid, gid := u.primary_group }

/-- Combined state threaded through `set_last_session`. -/
structure SysState where
  ids : IdState
  fs : Fs
deriving DecidableEq

/-- Model of `set_last_session` (`desktop.rs:67-79`).  `db` resolves
`user::get_current()` — `get_user_by_uid(getuid())` — from the real uid.
The Rust body: save the current user, switch the fs identity to `usr`,
`create_dir_all(&path)?` (on the record path itself), `fs::write(&path, …)`
with its `Result` discarded, `set_permissions(&path, 0o744)?`, and only
then restore the saved identity.  Each `?` early-returns without the
restore. -/
def set_last_session (db : Nat → User) (usr : User) (desktop : Desktop)
    (st : SysState) : Result Unit Unit × SysState :=
  let previous_user := db st.ids.ruid
  let st := { st with ids := set_fs_user usr st.ids }
  let path := usr.home_dir ++ LAST_SESSION_PATH
  match create_dir_all st.fs path with
  | none => (.error (), st)
  | some fs1 =>
      let content := desktop.exec ++ [';'] ++ desktop.env.display ++ ['\n']
      let fs2 := (fsWrite fs1 path content).getD fs1
      let st := { st with fs := fs2 }
      match set_permissions st.fs path with
      | none => (.error (), st)
      | some _ =>
          (.ok (), { st with ids := set_fs_user previous_user st.ids })

/-! ## `src/lib.rs`: session command preparation -/

inductive LaunchType where
  | xinitrc : LaunchType
  | dbus : LaunchType
deriving DecidableEq

/-- Rust `str::split(sep)`: splits at every separator and keeps empty
pieces — in particular `"".split(' ')` yields `[""]`, never the empty
list. -/
def rustSplit (sep : Char) : List Char → List (List Char)
  | [] => [[]]
  | c :: cs =>
      if c = sep then
        [] :: rustSplit sep cs
      else
        match rustSplit sep cs with
        | [] => [[c]]
        | h :: t => (c :: h) :: t

/-- Render a path (component list) the way `PathBuf` displays an absolute
path, for use as a command-line argument. -/
def pathToChars (p : FsPath) : List Char :=
  p.foldl (fun acc comp => acc ++ '/' :: comp.toList) []

/-- What `exec_cmd` (`lib.rs:259-270`) configures on the returned
`Command`: the program, its arguments, and the spawn-time uid/gid drop. -/
structure GuiCommand where
  bin : List Char
  args : List (List Char)
  uid : Nat
  gid : Nat
deriving DecidableEq

/-- Model of `prepare_gui_command` (`lib.rs:234-257`).  `xinitrcExists` is
`user.home_dir().join(".xinitrc").exists()`.  The command line is split at
every space; with `LaunchType::XInitRc`, no literal `".xinitrc"` token and
an existing `~/.xinitrc`, the command is wrapped in a login shell running
that script; with `LaunchType::DBus` it is prefixed with `dbus-launch`;
otherwise `split_first` is taken and only an empty vector — which
`split(' ')` never produces — reaches the `bail!("Empty exec")`. -/
def prepare_gui_command (user : User) (desktop : Desktop) (lt : LaunchType)
    (xinitrcExists : Bool) : Result Unit GuiCommand :=
  let exec := rustSplit ' ' desktop.exec
  if lt = .xinitrc ∧ ¬ exec.contains ".xinitrc".toList ∧ xinitrcExists then
    .ok { bin := "/bin/bash".toList
          args := "--login".toList :: pathToChars (user.home_dir ++ [".xinitrc"]) :: exec
          uid := user.uid, gid := user.primary_group }
  else if lt = .dbus then
    .ok { bin := "dbus-launch".toList, args := exec
          uid := user.uid, gid := user.primary_group }
  else
    match exec with
    | [] => .error ()
    | bin :: args =>
        .ok { bin := bin, args := args, uid := user.uid, gid := user.primary_group }

/-! ## `src/lib.rs`: the `xorg` launch sequence as an event trace

The observable process/file actions of `xorg` (`lib.rs:141-232`) are
recorded as an ordered trace; every fallible external step is an oracle
field.  `kill_process` sends one signal, `wait_process` performs one
`wait`, so one trace event corresponds to exactly one such call. -/

inductive XEvent where
  | spawnServer : XEvent
  | killServer : XEvent
  | waitServer : XEvent
  | spawnSession : XEvent
  | waitSession : XEvent
  | removeAuth : XEvent
deriving DecidableEq

inductive XErr where
  | noFreeDisplay : XErr
  | osError : XErr
  | displayUnready : XErr
  | emptyExec : XErr
deriving DecidableEq

structure XorgOracle where
  /-- Whether `/tmp/.X<i>-lock` exists, for `find_free_xdisplay`. -/
  locks : Nat → Bool
  /-- Whether `std::fs::write(&xauthority, "")?` succeeds. -/
  writeAuthOk : Bool
  /-- Whether `user.set_file_owner(&xauthority)?` succeeds. -/
  chownOk : Bool
  /-- the `mcookie` invocation (`output()?` and `String::from_utf8?`) succeeds. -/
  mcookieOk : Bool
  /-- the `xauth add` invocation (`output()?`) succeeds. -/
  xauthOk : Bool
  /-- Whether `Command::new("/usr/bin/Xorg")...spawn()?` succeeds. -/
  spawnServerOk : Bool
  /-- Whether `XDisplay::open` connects within its 50 bounded retries. -/
  openDisplayOk : Bool
  /-- the xinit child `spawn()?` succeeds. -/
  spawnSessionOk : Bool
  /-- Whether `std::fs::remove_file(&xauthority)?` succeeds. -/
  removeAuthOk : Bool

/-- The `start_xinit` closure (`lib.rs:179-189`): open the display (the
bounded-retry probe), prepare the session command, spawn it. -/
def start_xinit (user : User) (desktop : Desktop) (lt : LaunchType)
    (xinitrcExists : Bool) (o : XorgOracle) : List XEvent × Result XErr Unit :=
  if !o.openDisplayOk then
    ([], .error .displayUnready)
  else
    match prepare_gui_command user desktop lt xinitrcExists with
    | .error _ => ([], .error .emptyExec)
    | .ok _ =>
        if o.spawnSessionOk then ([.spawnSession], .ok ())
        else ([], .error .osError)

/-- Model of `xorg` (`lib.rs:141-232`) as a trace-producing function.  The steps up
to the Xorg spawn each propagate failure with `?`; after the server is
spawned, a failing `start_xinit` is answered by `kill_process(xorg.id())`
then `wait_process(xorg)` then `return Err(e)` (`lib.rs:190-197`); on
success the engine supervises until the session's process group is gone,
waits on the session child, kills and waits the server, and finally runs
`std::fs::remove_file(&xauthority)?` — whose failure propagates. -/
def xorg (user : User) (desktop : Desktop) (lt : LaunchType)
    (xinitrcExists : Bool) (o : XorgOracle) : List XEvent × Result XErr Unit :=
  match find_free_xdisplay o.locks with
  | none => ([], .error .noFreeDisplay)
  | some _ =>
      if !o.writeAuthOk then ([], .error .osError)
      else if !o.chownOk then ([], .error .osError)
      else if !o.mcookieOk then ([], .error .osError)
      else if !o.xauthOk then ([], .error .osError)
      else if !o.spawnServerOk then ([], .error .osError)
      else
        match start_xinit user desktop lt xinitrcExists o with
        | (evs, .error e) =>
            (XEvent.spawnServer :: evs ++ [.killServer, .waitServer], .error e)
        | (evs, .ok _) =>
            (XEvent.spawnServer :: evs ++
               [.waitSession, .killServer, .waitServer, .removeAuth],
             if o.removeAuthOk then .ok () else .error .osError)

/-! ## Concrete sample inputs used by witnesses and counterexamples -/

def sampleUser : User :=
  { uid := 1000, primary_group := 1000, name := [97, 108, 105, 99, 101]
    home_dir := ["home", "alice"], shell := ["bin", "bash"] }

def rootUser : User :=
  { uid := 0, primary_group := 0, name := [114, 111, 111, 116]
    home_dir := ["root"], shell := ["bin", "bash"] }

/-- A `get_user_by_uid(getuid())` resolver for a process whose real uid is
root. -/
def rootDb : Nat → User := fun _ => rootUser

def sampleDesktop : Desktop :=
  { name := "Foo".toList, comment := [], exec := "/usr/bin/foo".toList, env := .xorg }

/-- A session description whose executable command line is the empty
string. -/
def emptyExecDesktop : Desktop :=
  { name := "Empty".toList, comment := [], exec := [], env := .xorg }

def emptyState : SysState :=
  { ids := { ruid := 0, fsuid := 0, gid := 0 }, fs := [] }

/-- A state in which `~alice/.cache` is occupied by a regular file, so
`create_dir_all` on the record path fails. -/
def cacheFileState : SysState :=
  { ids := { ruid := 0, fsuid := 0, gid := 0 }
    fs := [(["home", "alice", ".cache"], .file [])] }

/-- A filesystem holding a well-formed record file
`/home/alice/.cache/dsdmona/last_session` with the documented
`<command>;<environment-tag>` layout. -/
def wellFormedRecordFs : Fs :=
  [(["home", "alice", ".cache", "dsdmona", "last_session"],
      .file ("/usr/bin/foo;Xorg\n".toList)),
   (["home", "alice", ".cache", "dsdmona"], .dir)]

def oAllOk : XorgOracle :=
  { locks := fun _ => false, writeAuthOk := true, chownOk := true
    mcookieOk := true, xauthOk := true, spawnServerOk := true
    openDisplayOk := true, spawnSessionOk := true, removeAuthOk := true }

def oOpenFail : XorgOracle := { oAllOk with openDisplayOk := false }

def oRemoveFail : XorgOracle := { oAllOk with removeAuthOk := false }

def oAllLocked : XorgOracle := { oAllOk with locks := fun _ => true }

def oLocksBelow3 : XorgOracle := { oAllOk with locks := fun i => decide (i < 3) }

/-- A sample `crypt` oracle: the key `[97]` hashes to the salt itself
(the stored credential), every other key to a different digest. -/
def sampleCrypt : Bytes → Bytes → Option Bytes :=
  fun key salt => if key = [97] then some salt else some [9]

/-! ## Helper lemmas -/

/-- Rust `str::split` never yields an empty vector: the empty string splits to
one empty piece. -/
theorem rustSplit_ne_nil (sep : Char) (s : List Char) : rustSplit sep s ≠ [] := by
  cases s with
  | nil => simp [rustSplit]
  | cons c cs =>
      rw [rustSplit]
      by_cases hc : c = sep
      · simp [hc]
      · simp only [if_neg hc]
        cases rustSplit sep cs <;> simp

/-- A constantly-`ERANGE` passwd database drives the retry loop to the
`checked_mul` overflow, where the `?` yields `None`. -/
theorem pwRetryLoop_const_erange (len : Nat) (h : 0 < len) :
    pwRetryLoop (fun _ => .erange) len h = none := by
  rw [pwRetryLoop]
  by_cases h2 : 2 * len ≤ USIZE_MAX
  · rw [dif_pos h2]
    exact pwRetryLoop_const_erange (2 * len) (by omega)
  · rw [dif_neg h2]
termination_by USIZE_MAX - len
decreasing_by
  have : USIZE_MAX = 2 ^ 64 - 1 := rfl
  omega

/-- A constantly-`ERANGE` shadow database drives the retry loop to the
`checked_mul` overflow, where `ok_or_else` produces the distinct error. -/
theorem spRetryLoop_const_erange (len : Nat) (h : 0 < len) :
    spRetryLoop (fun _ => .erange) len h = .error .resourceExhausted := by
  rw [spRetryLoop]
  by_cases h2 : 2 * len ≤ USIZE_MAX
  · rw [dif_pos h2]
    exact spRetryLoop_const_erange (2 * len) (by omega)
  · rw [dif_neg h2]
termination_by USIZE_MAX - len
decreasing_by
  have : USIZE_MAX = 2 ^ 64 - 1 := rfl
  omega

/-- The `start_xinit` closure either fails having spawned nothing, or
succeeds having spawned exactly the session child. -/
theorem start_xinit_cases (u : User) (d : Desktop) (lt : LaunchType) (xe : Bool)
    (o : XorgOracle) :
    (∃ e, start_xinit u d lt xe o = ([], .error e)) ∨
      start_xinit u d lt xe o = ([.spawnSession], .ok ()) := by
  rw [start_xinit]
  by_cases hop : o.openDisplayOk
  · simp only [hop, Bool.not_true, Bool.false_eq_true, if_false]
    cases prepare_gui_command u d lt xe with
    | error e => exact Or.inl ⟨.emptyExec, rfl⟩
    | ok cmd =>
        by_cases hsp : o.spawnSessionOk
        · simp [hsp]
        · simp [hsp]
  · simp only [hop, Bool.not_false]
    exact Or.inl ⟨.displayUnready, by simp⟩

/-- Once the display probe and every step up to the Xorg spawn succeed,
`xorg` is the post-server continuation of `lib.rs:179-231`. -/
theorem xorg_after_server (u : User) (d : Desktop) (lt : LaunchType) (xe : Bool)
    (o : XorgOracle) (dsp : Nat)
    (hfree : find_free_xdisplay o.locks = some dsp)
    (hw : o.writeAuthOk = true) (hc : o.chownOk = true)
    (hm : o.mcookieOk = true) (hx : o.xauthOk = true)
    (hs : o.spawnServerOk = true) :
    xorg u d lt xe o =
      (match start_xinit u d lt xe o with
       | (evs, .error e) =>
           (XEvent.spawnServer :: evs ++ [.killServer, .waitServer], .error e)
       | (evs, .ok _) =>
           (XEvent.spawnServer :: evs ++
              [.waitSession, .killServer, .waitServer, .removeAuth],
            if o.removeAuthOk then .ok () else .error .osError)) := by
  rw [xorg, hfree]
  simp [hw, hc, hm, hx, hs]

/-- Claim C2: whenever the display server has been started and the
subsequent startup phase fails — the `start_xinit` closure returns an
error, covering exhausted display-readiness retries and a failed session
spawn — `xorg` sends the server exactly one termination request and waits
on it exactly once before returning that error. -/
theorem xorg_kills_and_waits_server_on_startup_failure
    (u : User) (d : Desktop) (lt : LaunchType) (xe : Bool)
    (o : XorgOracle) (dsp : Nat) (e : XErr)
    (hfree : find_free_xdisplay o.locks = some dsp)
    (hw : o.writeAuthOk = true) (hc : o.chownOk = true)
    (hm : o.mcookieOk = true) (hx : o.xauthOk = true)
    (hs : o.spawnServerOk = true)
    (hfail : (start_xinit u d lt xe o).2 = .error e) :
    xorg u d lt xe o = ([.spawnServer, .killServer, .waitServer], .error e) ∧
    (xorg u d lt xe o).1.count .killServer = 1 ∧
    (xorg u d lt xe o).1.count .waitServer = 1 := by
  have hsx : start_xinit u d lt xe o = ([], .error e) := by
    rcases start_xinit_cases u d lt xe o with ⟨e', he'⟩ | hok
    · rw [he'] at hfail ⊢
      cases hfail
      rfl
    · rw [hok] at hfail
      simp at hfail
  have hred := xorg_after_server u d lt xe o dsp hfree hw hc hm hx hs
  rw [hsx] at hred
  refine ⟨hred, ?_, ?_⟩ <;> rw [hred] <;> rfl

/-- Witness for C2 at a concrete oracle whose display never becomes
connectable. -/
theorem xorg_kills_and_waits_server_on_startup_failure_witness :
    xorg sampleUser sampleDesktop .xinitrc false oOpenFail =
      ([.spawnServer, .killServer, .waitServer], .error .displayUnready) ∧
    (xorg sampleUser sampleDesktop .xinitrc false oOpenFail).1.count .killServer = 1 ∧
    (xorg sampleUser sampleDesktop .xinitrc false oOpenFail).1.count .waitServer = 1 :=
  xorg_kills_and_waits_server_on_startup_failure sampleUser sampleDesktop
    .xinitrc false oOpenFail 0 .displayUnready (by decide) rfl rfl rfl rfl rfl
    (by decide)

/-- Claim C5 (amended): after the server start, the authority file is
removed — as the final step — only on the path where the session launched
and supervision completed; on the abort path it is not removed at all,
and a failing removal is propagated to the caller as an error. -/
theorem xauthority_removed_only_on_success
    (u : User) (d : Desktop) (lt : LaunchType) (xe : Bool)
    (o : XorgOracle) (dsp : Nat)
    (hfree : find_free_xdisplay o.locks = some dsp)
    (hw : o.writeAuthOk = true) (hc : o.chownOk = true)
    (hm : o.mcookieOk = true) (hx : o.xauthOk = true)
    (hs : o.spawnServerOk = true) :
    (∀ e, (start_xinit u d lt xe o).2 = .error e →
        XEvent.removeAuth ∉ (xorg u d lt xe o).1) ∧
    ((start_xinit u d lt xe o).2 = .ok () →
        (xorg u d lt xe o).1.getLast? = some .removeAuth ∧
        (xorg u d lt xe o).2 =
          (if o.removeAuthOk then .ok () else .error .osError)) := by
  have hred := xorg_after_server u d lt xe o dsp hfree hw hc hm hx hs
  constructor
  · intro e hfail
    have := xorg_kills_and_waits_server_on_startup_failure u d lt xe o dsp e
      hfree hw hc hm hx hs hfail
    rw [this.1]
    simp
  · intro hok
    have hsx : start_xinit u d lt xe o = ([.spawnSession], .ok ()) := by
      rcases start_xinit_cases u d lt xe o with ⟨e', he'⟩ | h
      · rw [he'] at hok
        simp at hok
      · exact h
    rw [hsx] at hred
    rw [hred]
    exact ⟨rfl, rfl⟩

/-- Witness for C5 (amended) at the all-successful oracle. -/
theorem xauthority_removed_only_on_success_witness :
    (xorg sampleUser sampleDesktop .xinitrc false oAllOk).1.getLast? =
      some .removeAuth ∧
    (xorg sampleUser sampleDesktop .xinitrc false oAllOk).2 =
      (if oAllOk.removeAuthOk then .ok () else .error .osError) :=
  (xauthority_removed_only_on_success sampleUser sampleDesktop .xinitrc false
      oAllOk 0 (by decide) rfl rfl rfl rfl rfl).2 (by decide)

/-- Counterexample to C5 as stated: on the abort path the authority file
is never removed, and on the successful path a failing removal is
propagated as an error instead of being only logged. -/
theorem xauthority_removal_claim_fails :
    XEvent.removeAuth ∉ (xorg sampleUser sampleDesktop .xinitrc false oOpenFail).1 ∧
    (xorg sampleUser sampleDesktop .xinitrc false oOpenFail).2 =
      .error .displayUnready ∧
    (xorg sampleUser sampleDesktop .xinitrc false oRemoveFail).1.getLast? =
      some .removeAuth ∧
    (xorg sampleUser sampleDesktop .xinitrc false oRemoveFail).2 =
      .error .osError := by
  decide

/-- Whatever `findFreeFrom` returns is in range, unlocked, and preceded
only by locked indices. -/
theorem findFreeFrom_some (locks : Nat → Bool) (fuel : Nat) :
    ∀ start i, findFreeFrom locks fuel start = some i →
      start ≤ i ∧ i < start + fuel ∧ locks i = false ∧
      ∀ j, start ≤ j → j < i → locks j = true := by
  induction fuel with
  | zero =>
      intro start i h
      simp [findFreeFrom] at h
  | succ n ih =>
      intro start i h
      rw [findFreeFrom] at h
      by_cases hl : locks start = true
      · simp only [hl, Bool.not_true, Bool.false_eq_true, if_false] at h
        obtain ⟨h1, h2, h3, h4⟩ := ih (start + 1) i h
        refine ⟨by omega, by omega, h3, ?_⟩
        intro j hj1 hj2
        rcases Nat.eq_or_lt_of_le hj1 with rfl | hlt
        · exact hl
        · exact h4 j hlt hj2
      · rw [Bool.not_eq_true] at hl
        simp only [hl, Bool.not_false, if_true, Option.some.injEq] at h
        subst h
        exact ⟨Nat.le_refl _, by omega, hl, fun j hj1 hj2 => absurd (Nat.lt_of_le_of_lt hj1 hj2) (Nat.lt_irrefl _)⟩

/-- The probe `findFreeFrom` exhausts exactly when every probed index is locked. -/
theorem findFreeFrom_none (locks : Nat → Bool) (fuel : Nat) :
    ∀ start, findFreeFrom locks fuel start = none ↔
      ∀ j, start ≤ j → j < start + fuel → locks j = true := by
  induction fuel with
  | zero =>
      intro start
      simp only [findFreeFrom, true_iff]
      intro j h1 h2
      omega
  | succ n ih =>
      intro start
      rw [findFreeFrom]
      by_cases hl : locks start = true
      · simp only [hl, Bool.not_true, Bool.false_eq_true, if_false, ih (start + 1)]
        constructor
        · intro hall j hj1 hj2
          rcases Nat.eq_or_lt_of_le hj1 with rfl | hlt
          · exact hl
          · exact hall j hlt (by omega)
        · intro hall j hj1 hj2
          exact hall j (by omega) (by omega)
      · rw [Bool.not_eq_true] at hl
        simp only [hl, Bool.not_false, if_true]
        constructor
        · intro h
          cases h
        · intro hall
          have := hall start (Nat.le_refl _) (by omega)
          rw [hl] at this
          cases this

/-- Claim C7: the display probe tries indices `0..32` in order and
returns the first free one — every smaller index has its lock artifact
present — and when all 32 are occupied the launch fails with the
no-free-display error, with no retry. -/
theorem find_free_xdisplay_first_free (u : User) (d : Desktop)
    (lt : LaunchType) (xe : Bool) (o : XorgOracle) :
    (∀ i, find_free_xdisplay o.locks = some i →
        i < 32 ∧ o.locks i = false ∧ ∀ j, j < i → o.locks j = true) ∧
    (find_free_xdisplay o.locks = none ↔ ∀ i, i < 32 → o.locks i = true) ∧
    ((∀ i, i < 32 → o.locks i = true) →
        xorg u d lt xe o = ([], .error .noFreeDisplay)) := by
  refine ⟨?_, ?_, ?_⟩
  · intro i h
    obtain ⟨h1, h2, h3, h4⟩ := findFreeFrom_some o.locks 32 0 i h
    exact ⟨by omega, h3, fun j hj => h4 j (Nat.zero_le _) hj⟩
  · rw [find_free_xdisplay, findFreeFrom_none o.locks 32 0]
    constructor
    · intro hall i h1
      exact hall i (Nat.zero_le _) (by omega)
    · intro hall j h1 h2
      exact hall j (by omega)
  · intro hall
    have hnone : find_free_xdisplay o.locks = none := by
      rw [find_free_xdisplay, findFreeFrom_none o.locks 32 0]
      intro j h1 h2
      exact hall j (by omega)
    rw [xorg, hnone]

/-- Witness for C7: with locks on indices `0`, `1`, `2` only, the probe
returns `3`; with every index locked, the launch aborts. -/
theorem find_free_xdisplay_first_free_witness :
    (3 < 32 ∧ oLocksBelow3.locks 3 = false ∧
      ∀ j, j < 3 → oLocksBelow3.locks j = true) ∧
    xorg sampleUser sampleDesktop .xinitrc false oAllLocked =
      ([], .error .noFreeDisplay) :=
  ⟨(find_free_xdisplay_first_free sampleUser sampleDesktop .xinitrc false
      oLocksBelow3).1 3 (by decide),
   (find_free_xdisplay_first_free sampleUser sampleDesktop .xinitrc false
      oAllLocked).2.2 (fun i _ => rfl)⟩

/-- Claim C8 (amended): the human-user enumeration never yields a uid
outside `[1000, 65534)`, and it yields no account twice provided the
underlying `getpwent` stream itself yields no record twice — the code
only filters and performs no deduplication of its own. -/
theorem all_human_users_bounds (db : List User) :
    (∀ u ∈ all_human_users db, MIN_UID ≤ u.uid ∧ u.uid < MAX_UID) ∧
    (db.Nodup → (all_human_users db).Nodup) := by
  constructor
  · intro u hu
    have := List.of_mem_filter hu
    simp only [Bool.and_eq_true, decide_eq_true_eq] at this
    exact this
  · intro h
    exact h.filter _

/-- Witness for C8 (amended) on a duplicate-free two-record database. -/
theorem all_human_users_bounds_witness :
    (∀ u ∈ all_human_users [sampleUser, rootUser],
        MIN_UID ≤ u.uid ∧ u.uid < MAX_UID) ∧
    (all_human_users [sampleUser, rootUser]).Nodup :=
  ⟨(all_human_users_bounds [sampleUser, rootUser]).1,
   (all_human_users_bounds [sampleUser, rootUser]).2 (by decide)⟩

/-- Counterexample to C8 as stated: a `getpwent` stream that repeats a
record makes `all_human_users` yield the same account twice. -/
theorem all_human_users_duplicates :
    all_human_users [sampleUser, sampleUser] = [sampleUser, sampleUser] ∧
    ¬ (all_human_users [sampleUser, sampleUser]).Nodup := by
  constructor
  · decide
  · intro h
    rw [show all_human_users [sampleUser, sampleUser] =
        [sampleUser, sampleUser] from by decide] at h
    simp at h

/-- Claim C10: `auth_password` is not total in the candidate — a NUL byte
in the candidate makes it panic (`CString::new(...).unwrap()`) before the
shadow lookup or any comparison, for every lookup result and every
`crypt`; a NUL-free candidate always produces a boolean. -/
theorem auth_password_totality (crypt : Bytes → Bytes → Option Bytes)
    (l l' : Result SpError Bytes) (pw : Bytes) :
    (pw.contains 0 = true →
        auth_password crypt l pw = none ∧ auth_password crypt l' pw = none) ∧
    (pw.contains 0 = false → ∃ b, auth_password crypt l pw = some b) := by
  constructor
  · intro h
    have hok : cstringNewOk pw = false := by
      unfold cstringNewOk
      rw [h]
      rfl
    constructor <;> simp [auth_password.eq_def, hok]
  · intro h
    have hok : cstringNewOk pw = true := by
      unfold cstringNewOk
      rw [h]
      rfl
    cases l with
    | error e => exact ⟨false, by simp [auth_password.eq_def, hok]⟩
    | ok user_password =>
        cases hc : crypt pw user_password with
        | none => exact ⟨false, by simp [auth_password.eq_def, hok, hc]⟩
        | some r =>
            exact ⟨decide (user_password = r),
              by simp [auth_password.eq_def, hok, hc]⟩

/-- Witness for C10: the candidate `[0]` (a NUL byte) is answered by a
panic whatever the lookup returned; the candidate `[97]` gets a boolean. -/
theorem auth_password_totality_witness :
    (auth_password (fun _ _ => none) (.ok [1]) [0] = none ∧
      auth_password (fun _ _ => none) (.error .notFound) [0] = none) ∧
    ∃ b, auth_password (fun _ _ => none) (.ok [1]) [97] = some b :=
  ⟨(auth_password_totality (fun _ _ => none) (.ok [1]) (.error .notFound)
      [0]).1 (by decide),
   (auth_password_totality (fun _ _ => none) (.ok [1]) (.error .notFound)
      [97]).2 (by decide)⟩

/-- Claim C3 (amended): for a NUL-free candidate, `auth_password` hashes
it with the stored credential as salt, compares the bytes, and returns
`true` exactly when the hash equals the stored credential; it returns
`false` — without throwing — when `crypt` returns null, and also when the
shadow lookup failed. -/
theorem auth_password_verifies (crypt : Bytes → Bytes → Option Bytes)
    (stored pw : Bytes) (hnul : pw.contains 0 = false) :
    (∀ r, crypt pw stored = some r →
        auth_password crypt (.ok stored) pw = some (decide (stored = r))) ∧
    (crypt pw stored = none →
        auth_password crypt (.ok stored) pw = some false) ∧
    (auth_password crypt (.ok stored) pw = some true ↔
        crypt pw stored = some stored) ∧
    (∀ e, auth_password crypt (.error e) pw = some false) := by
  have hok : cstringNewOk pw = true := by
    unfold cstringNewOk
    rw [hnul]
    rfl
  refine ⟨?_, ?_, ?_, ?_⟩
  · intro r hr
    simp [auth_password.eq_def, hok, hr]
  · intro hr
    simp [auth_password.eq_def, hok, hr]
  · rw [auth_password.eq_def]
    simp only [hok, if_true]
    cases hc : crypt pw stored with
    | none => simp
    | some r =>
        simp only [Option.some.injEq, decide_eq_true_eq]
        constructor
        · intro h
          rw [h]
        · intro h
          exact h.symm
  · intro e
    simp [auth_password.eq_def, hok]

/-- Witness for C3 (amended) with a `crypt` oracle that returns its salt
for the right key and another hash otherwise. -/
theorem auth_password_verifies_witness :
    auth_password sampleCrypt (.ok [1, 2]) [97] = some true ∧
    auth_password sampleCrypt (.ok [1, 2]) [98] = some false ∧
    auth_password (fun _ _ => none) (.ok [1, 2]) [97] = some false := by
  have h1 := (auth_password_verifies sampleCrypt [1, 2] [97] (by decide)).1
    [1, 2] (by decide)
  have h2 := (auth_password_verifies sampleCrypt [1, 2] [98] (by decide)).1
    [9] (by decide)
  have h3 := (auth_password_verifies (fun _ _ => none) [1, 2] [97]
    (by decide)).2.1 rfl
  rw [h1, h2, h3]
  refine ⟨by decide, by decide, rfl⟩

/-- Counterexample to C3 as stated: for the candidate `[97, 0]` — a
plaintext with a NUL byte — and a hash primitive that signals failure,
the claim requires `false`; the code panics instead of returning. -/
theorem auth_password_claim_fails_on_nul :
    auth_password (fun _ _ => none) (.ok [1, 2]) [97, 0] = none ∧
    auth_password (fun _ _ => none) (.ok [1, 2]) [97, 0] ≠ some false := by
  decide

/-- One `ERANGE` step of the passwd loop doubles the buffer. -/
theorem pwRetryLoop_erange_step (db : Nat → PwOutcome) (len : Nat)
    (h : 0 < len) (hd : db len = .erange) (hm : 2 * len ≤ USIZE_MAX) :
    pwRetryLoop db len h = pwRetryLoop db (2 * len) (by omega) := by
  rw [pwRetryLoop]
  simp only [hd]
  rw [dif_pos hm]

/-- An `ERANGE` step whose doubling would overflow makes the passwd loop
return `None`. -/
theorem pwRetryLoop_erange_overflow (db : Nat → PwOutcome) (len : Nat)
    (h : 0 < len) (hd : db len = .erange) (hm : USIZE_MAX < 2 * len) :
    pwRetryLoop db len h = none := by
  rw [pwRetryLoop]
  simp only [hd]
  rw [dif_neg (by omega)]

/-- One `ERANGE` step of the shadow loop doubles the buffer. -/
theorem spRetryLoop_erange_step (db : Nat → SpOutcome) (len : Nat)
    (h : 0 < len) (hd : db len = .erange) (hm : 2 * len ≤ USIZE_MAX) :
    spRetryLoop db len h = spRetryLoop db (2 * len) (by omega) := by
  rw [spRetryLoop]
  simp only [hd]
  rw [dif_pos hm]

/-- An `ERANGE` step whose doubling would overflow makes the shadow loop
fail with the distinct buffer error. -/
theorem spRetryLoop_erange_overflow (db : Nat → SpOutcome) (len : Nat)
    (h : 0 < len) (hd : db len = .erange) (hm : USIZE_MAX < 2 * len) :
    spRetryLoop db len h = .error .resourceExhausted := by
  rw [spRetryLoop]
  simp only [hd]
  rw [dif_neg (by omega)]

/-- Claim C6 (amended): every lookup doubles its buffer and retries on
buffer-too-small; when the doubling would overflow, the shadow-record
fetch fails with the distinct buffer-growth error, but `get_user_by_uid`
and `get_user_by_name` return `None` — the same value as for a missing
record, not a distinct typed failure. -/
theorem bounded_buffer_growth (db : Nat → PwOutcome) (sdb : Nat → SpOutcome)
    (len : Nat) (h : 0 < len) :
    (db len = .erange → 2 * len ≤ USIZE_MAX →
        pwRetryLoop db len h = pwRetryLoop db (2 * len) (by omega)) ∧
    (db len = .erange → USIZE_MAX < 2 * len → pwRetryLoop db len h = none) ∧
    (sdb len = .erange → 2 * len ≤ USIZE_MAX →
        spRetryLoop sdb len h = spRetryLoop sdb (2 * len) (by omega)) ∧
    (sdb len = .erange → USIZE_MAX < 2 * len →
        spRetryLoop sdb len h = .error .resourceExhausted) ∧
    ((∀ n, sdb n = .erange) →
        get_user_password sdb = .error .resourceExhausted) ∧
    ((∀ n, db n = .erange) →
        get_user_by_uid db = none ∧ get_user_by_name db = none) := by
  refine ⟨pwRetryLoop_erange_step db len h, pwRetryLoop_erange_overflow db len h,
    spRetryLoop_erange_step sdb len h, spRetryLoop_erange_overflow sdb len h,
    ?_, ?_⟩
  · intro hall
    have hfun : sdb = fun _ => .erange := funext hall
    rw [get_user_password, hfun]
    exact spRetryLoop_const_erange 2048 (by norm_num)
  · intro hall
    have hfun : db = fun _ => .erange := funext hall
    rw [get_user_by_uid, get_user_by_name, hfun]
    exact ⟨pwRetryLoop_const_erange 2048 (by norm_num),
      pwRetryLoop_const_erange 2048 (by norm_num)⟩

/-- Witness for C6 (amended): the retry doubles 2048 to 4096; at the
overflow boundary the shadow loop reports the buffer error while the
passwd loop reports `None`; end to end, a constantly-`ERANGE` database
produces the two different failure shapes. -/
theorem bounded_buffer_growth_witness :
    pwRetryLoop (fun _ => .erange) 2048 (by norm_num) =
      pwRetryLoop (fun _ => .erange) 4096 (by norm_num) ∧
    spRetryLoop (fun _ => .erange) (2 ^ 63) (by positivity) =
      .error .resourceExhausted ∧
    pwRetryLoop (fun _ => .erange) (2 ^ 63) (by positivity) = none ∧
    get_user_password (fun _ => .erange) = .error .resourceExhausted ∧
    get_user_by_uid (fun _ => .erange) = none := by
  have H1 := bounded_buffer_growth (fun _ => .erange) (fun _ => .erange)
    2048 (by norm_num)
  have H2 := bounded_buffer_growth (fun _ => .erange) (fun _ => .erange)
    (2 ^ 63) (by positivity)
  have hmax : USIZE_MAX = 2 ^ 64 - 1 := rfl
  refine ⟨?_, ?_, ?_, ?_, ?_⟩
  · have := H1.1 rfl (by rw [hmax]; norm_num)
    rw [this]
  · exact H2.2.2.2.1 rfl (by rw [hmax]; norm_num)
  · exact H2.2.1 rfl (by rw [hmax]; norm_num)
  · exact H1.2.2.2.2.1 (fun n => rfl)
  · exact (H1.2.2.2.2.2 (fun n => rfl)).1

/-- Counterexample to C6 as stated: when doubling overflows,
`get_user_by_uid` yields `None` — indistinguishable from the `None` of a
missing record — instead of a distinct `ResourceExhausted`-style failure;
only the shadow fetch distinguishes the two. -/
theorem buffer_overflow_conflated_with_not_found :
    get_user_by_uid (fun _ => .erange) = none ∧
    get_user_by_uid (fun _ => .notFound) = none ∧
    get_user_by_name (fun _ => .erange) = none ∧
    get_user_password (fun _ => .erange) = .error .resourceExhausted := by
  refine ⟨?_, ?_, ?_, ?_⟩
  · exact pwRetryLoop_const_erange 2048 (by norm_num)
  · rw [get_user_by_uid, pwRetryLoop]
  · exact pwRetryLoop_const_erange 2048 (by norm_num)
  · exact spRetryLoop_const_erange 2048 (by norm_num)

/-- Claim C1 (code bug): when `create_dir_all` fails inside
`set_last_session`, the `?` returns early and the saved filesystem
identity is never restored — the state keeps the target account's
uid/gid; on the successful path it is restored. -/
theorem set_last_session_identity_not_restored :
    (set_last_session rootDb sampleUser sampleDesktop cacheFileState).1 =
      .error () ∧
    (set_last_session rootDb sampleUser sampleDesktop cacheFileState).2.ids.fsuid =
      sampleUser.uid ∧
    ¬ (set_last_session rootDb sampleUser sampleDesktop cacheFileState).2.ids.fsuid =
      cacheFileState.ids.fsuid ∧
    (set_last_session rootDb sampleUser sampleDesktop emptyState).2.ids.fsuid =
      emptyState.ids.fsuid := by
  decide

/-- Claim C4 (code bug): the writer creates a directory at the record
path itself (`create_dir_all(&path)`), discards the failed `fs::write`,
and reports success — after which the reader finds a directory and yields
`None`; and even a well-formed record file yields `None`, because
`split_at` leaves the `';'` on the environment half so parsing fails. -/
theorem last_session_roundtrip_fails :
    (set_last_session rootDb sampleUser sampleDesktop emptyState).1 = .ok () ∧
    get_last_session
      (set_last_session rootDb sampleUser sampleDesktop emptyState).2.fs
      sampleUser = none ∧
    fsLookup (set_last_session rootDb sampleUser sampleDesktop emptyState).2.fs
      (sampleUser.home_dir ++ LAST_SESSION_PATH) = some .dir ∧
    get_last_session wellFormedRecordFs sampleUser = none := by
  decide

/-- Claim C9 (code bug): `"".split(' ')` yields `[""]`, never an empty
vector, so the `bail!("Empty exec")` branch is unreachable: an empty
command line produces a command with an empty program name (or a
`dbus-launch` / login-shell wrapper around nothing) instead of the
invalid-session error. -/
theorem prepare_gui_command_accepts_empty_exec :
    prepare_gui_command sampleUser emptyExecDesktop .xinitrc false =
      .ok { bin := [], args := [], uid := sampleUser.uid
            gid := sampleUser.primary_group } ∧
    prepare_gui_command sampleUser emptyExecDesktop .dbus false =
      .ok { bin := "dbus-launch".toList, args := [[]], uid := sampleUser.uid
            gid := sampleUser.primary_group } ∧
    (∀ (u : User) (d : Desktop) (lt : LaunchType) (xe : Bool),
        ∃ cmd, prepare_gui_command u d lt xe = .ok cmd) := by
  refine ⟨by decide, by decide, ?_⟩
  intro u d lt xe
  rw [prepare_gui_command]
  split
  · exact ⟨_, rfl⟩
  · split
    · exact ⟨_, rfl⟩
    · cases hsp : rustSplit ' ' d.exec with
      | nil => exact absurd hsp (rustSplit_ne_nil ' ' d.exec)
      | cons b args => exact ⟨_, rfl⟩

end Dsdmona
